import Mathlib

/-!
Shallow embedding of the multi-backend log retrieval pipeline of
`terraform-aws-ecs-monitor` (lambda/crash_notifier): `logs_utils.py`,
`elasticsearch_utils.py`, `coralogix_utils.py` and the task-definition
lookup in `ecs_utils.py`.

Modelling conventions:
- Python dict/JSON values are modelled by the inductive `Json`; `dict.get`
  is `Json.get` / `Json.getD`; Python truthiness is `Json.truthy` (and
  `pyTruthyOpt` for `os.environ.get` results).
- Environment variables are the fields of `Env` (`none` = unset).
- The network is an oracle `World`: each field holds the response the
  corresponding remote call would produce (`none` = the call raised, which
  the source catches and turns into an empty result).  `World.json_loads`
  models Python's `json.loads` and `parseIso` arguments model
  `datetime.fromisoformat(...).timestamp() * 1000`, both of which are
  stdlib code external to the repository.
- Each function returns its value together with an event trace (`List Ev`)
  recording, in order: adapter entry (`esAttempt`/`cgAttempt`/`cwAttempt`),
  every outbound network call, every assignment to
  `crash_info['log_source']` (`setSource`), and the orchestrator returning
  a non-empty result from a backend (`supplied`).
- Dynamic-type errors that Python would raise on pathological wire shapes
  (e.g. `'result' in 5`) are totalized to the empty/default result; the
  source catches everything into an empty result anyway.
-/

/-- JSON-like Python values used on the wire and inside `crash_info`. -/
inductive Json where
  | null
  | str (s : String)
  | int (n : Int)
  | bool (b : Bool)
  | arr (xs : List Json)
  | obj (kvs : List (String × Json))

/-- `dict.get(k)`: `none` when the key is absent or the value is not a dict. -/
def Json.get : Json → String → Option Json
  | .obj kvs, k => kvs.lookup k
  | _, _ => none

/-- `dict.get(k, d)`. -/
def Json.getD (j : Json) (k : String) (d : Json) : Json :=
  (j.get k).getD d

/-- Coerce a JSON value to a list, as the source does when iterating. -/
def Json.asArr : Json → List Json
  | .arr xs => xs
  | _ => []

/-- Coerce a JSON value to a string (log-config options are strings). -/
def Json.asStr : Json → String
  | .str s => s
  | _ => ""

/-- Python truthiness of a JSON value. -/
def Json.truthy : Json → Bool
  | .null => false
  | .str s => !(s == "")
  | .int n => !(n == 0)
  | .bool b => b
  | .arr xs => !xs.isEmpty
  | .obj kvs => !kvs.isEmpty

/-- Python `str(x)`.  Container rendering is abbreviated: no claim in this
development depends on the rendered text of a list or dict. -/
def pyStr : Json → String
  | .null => "None"
  | .str s => s
  | .int n => toString n
  | .bool b => if b then "True" else "False"
  | .arr _ => "<list>"
  | .obj _ => "<dict>"

/-- Truthiness of an `os.environ.get(...)` result. -/
def pyTruthyOpt : Option String → Bool
  | some s => !(s == "")
  | none => false

/-- Python `str.lower()` (ASCII case, which is all the flags use). -/
def lowerStr (s : String) : String :=
  String.mk (s.data.map Char.toLower)

/-- Python `str.isspace` characters relevant to `.strip()`. -/
def isPySpace (c : Char) : Bool :=
  c == ' ' || (9 ≤ c.toNat && c.toNat ≤ 13)

/-- Python `str.strip()`. -/
def stripStr (s : String) : String :=
  String.mk (((s.data.dropWhile isPySpace).reverse.dropWhile isPySpace).reverse)

/-- Helper of `splitChar`: accumulates the current field. -/
def splitCharAux (c : Char) : List Char → List Char → List String
  | [], acc => [String.mk acc.reverse]
  | x :: xs, acc =>
    if x == c then String.mk acc.reverse :: splitCharAux c xs []
    else splitCharAux c xs (x :: acc)

/-- Python `str.split(sep)` for a one-character separator. -/
def splitChar (c : Char) (s : String) : List String :=
  splitCharAux c s.data []

/-- Helper of `containsSub`: does `hay` start with `needle`? -/
def startsWithChars : List Char → List Char → Bool
  | _, [] => true
  | [], _ :: _ => false
  | h :: hs, n :: ns => h == n && startsWithChars hs ns

/-- Helper of `strContains`: substring search on character lists. -/
def containsSub (hay needle : List Char) : Bool :=
  match needle with
  | [] => true
  | _ :: _ =>
    match hay with
    | [] => false
    | _ :: t => startsWithChars hay needle || containsSub t needle

/-- Python `needle in hay` on strings. -/
def strContains (hay needle : String) : Bool :=
  containsSub hay.data needle.data

/-- The environment variables read by the pipeline (`none` = unset). -/
structure Env where
  enable_elasticsearch : Option String
  elasticsearch_endpoint : Option String
  elasticsearch_username : Option String
  elasticsearch_password : Option String
  enable_coralogix : Option String
  coralogix_api_key : Option String
  coralogix_region : Option String

/-- `os.environ.get(FLAG, 'false').lower() == 'true'`. -/
def envFlag (v : Option String) : Bool :=
  lowerStr (v.getD "false") == "true"

/-- The crashed container dict; `none` models an absent or falsy (empty)
`failed_container`, `name` models `failed_container.get('name', '')`. -/
structure Container where
  name : String
deriving DecidableEq

/-- The mutable `crash_info` dict, restricted to the fields the log
resolution pipeline reads or writes. -/
structure CrashInfo where
  task_arn : Option String
  service_name : String
  failed_container : Option Container
  task_definition_arn : Option String
  log_source : Option String
  recent_logs : Option (List Json)
  logs_count : Option Nat

/-- One CloudWatch `filter_log_events` event. -/
structure CWEvent where
  timestamp : Int
  message : String
deriving DecidableEq

/-- Events observed during a resolution run: adapter entries, outbound
network calls, writes to `crash_info['log_source']`, and the orchestrator
accepting a backend's non-empty result (`supplied`). -/
inductive Ev where
  | esAttempt | cgAttempt | cwAttempt
  | esSearch | cgQuery | ecsDescribeTaskDef | cwDescribeStreams | cwFilterEvents
  | setSource (b : String)
  | supplied (b : String)
deriving DecidableEq

/-- Whether an event is an outbound network call (backend or control-plane). -/
def Ev.isNet : Ev → Bool
  | .esSearch | .cgQuery | .ecsDescribeTaskDef
  | .cwDescribeStreams | .cwFilterEvents => true
  | _ => false

/-- The network oracle: what each remote endpoint would answer.  `none`
means the call raises (`requests` error, bad status, boto3 exception). -/
structure World where
  /-- Parsed body of the Elasticsearch `_search` response (`response.json()`). -/
  esBody : Option Json
  /-- Raw text of the Coralogix DataPrime response (`response.text`). -/
  cgText : Option String
  /-- Python `json.loads`, `none` = `JSONDecodeError`. -/
  json_loads : String → Option Json
  /-- `ecs.describe_task_definition` response. -/
  taskDefResp : Option Json
  /-- `logs.describe_log_streams(group, logStreamNamePfx, limit=1)`: stream names. -/
  streamsWithPfx : String → String → Option (List String)
  /-- `logs.describe_log_streams(group, orderBy=LastEventTime, desc, limit=50)`. -/
  recentStreams : String → Option (List String)
  /-- `logs.filter_log_events(group, [stream], limit=100)`: events. -/
  events : String → String → Option (List CWEvent)

/-- Condition under which `elasticsearch_utils.detect_log_destination`
picks Elasticsearch (enabled flag plus endpoint/username/password). -/
def es_detect_ok (env : Env) : Bool :=
  envFlag env.enable_elasticsearch
    && pyTruthyOpt env.elasticsearch_endpoint
    && pyTruthyOpt env.elasticsearch_username
    && pyTruthyOpt env.elasticsearch_password

/-- Condition under which `elasticsearch_utils.detect_log_destination`
picks Coralogix (enabled flag plus API key and region). -/
def cg_detect_ok (env : Env) : Bool :=
  envFlag env.enable_coralogix
    && pyTruthyOpt env.coralogix_api_key
    && pyTruthyOpt env.coralogix_region

/-- `elasticsearch_utils.detect_log_destination` (the version imported and
used by `logs_utils.get_recent_logs`). -/
def detect_log_destination (env : Env) : String :=
  if es_detect_ok env then "elasticsearch"
  else if cg_detect_ok env then "coralogix"
  else "cloudwatch"

/-- The `hits.hits` list of an Elasticsearch `_search` response body:
`result.get('hits', {}).get('hits', [])`. -/
def esHitsOf (body : Json) : List Json :=
  ((body.getD "hits" (Json.obj [])).getD "hits" (Json.arr [])).asArr

/-- The log-entry dict built for one Elasticsearch hit
(`elasticsearch_utils.get_elasticsearch_logs`, lines 75-97).  The
`timestamp` field is `source.get('@timestamp', '')`, copied verbatim. -/
def esEntryOf (hit : Json) : Json :=
  let source := hit.getD "_source" (Json.obj [])
  Json.obj [
    ("timestamp", source.getD "@timestamp" (Json.str "")),
    ("message", source.getD "message" (Json.str "")),
    ("level", source.getD "level" (Json.str "info")),
    ("container_name", source.getD "container_name" (Json.str "")),
    ("source", source.getD "source" (Json.str "")),
    ("ecs_cluster", source.getD "ecs_cluster" (Json.str "")),
    ("ecs_task_arn", source.getD "ecs_task_arn" (Json.str "")),
    ("ecs_task_definition", source.getD "ecs_task_definition" (Json.str "")),
    ("app_name", source.getD "appName" (Json.str "")),
    ("environment", source.getD "environment" (Json.str "")),
    ("version", source.getD "version" (Json.str "")),
    ("category_name", source.getD "categoryName" (Json.str "")),
    ("code", source.getD "code" (Json.str "")),
    ("raw_log", source)]

/-- The adapter-level Elasticsearch configuration check of
`get_elasticsearch_logs` (endpoint, username and password all set; the
guard `if not endpoint or not username or not password` negates it). -/
def es_configured (env : Env) : Bool :=
  pyTruthyOpt env.elasticsearch_endpoint
    && pyTruthyOpt env.elasticsearch_username
    && pyTruthyOpt env.elasticsearch_password

/-- `elasticsearch_utils.get_elasticsearch_logs`.  Checks configuration,
then the task ARN, sets `crash_info['log_source'] = 'elasticsearch'`
(before the query), issues the `_search` call and maps each hit to an
entry; any request/parse failure yields `[]`. -/
def get_elasticsearch_logs (env : Env) (w : World) (ci : CrashInfo) :
    List Json × CrashInfo × List Ev :=
  if !(es_configured env) then
    ([], ci, [Ev.esAttempt])
  else if !(pyTruthyOpt ci.task_arn) then
    ([], ci, [Ev.esAttempt])
  else
    let ci1 : CrashInfo := { ci with log_source := some "elasticsearch" }
    match w.esBody with
    | none => ([], ci1, [Ev.esAttempt, Ev.setSource "elasticsearch", Ev.esSearch])
    | some body =>
      let log_entries := (esHitsOf body).map esEntryOf
      let ci2 : CrashInfo :=
        { ci1 with recent_logs := some log_entries, logs_count := some log_entries.length }
      (log_entries, ci2, [Ev.esAttempt, Ev.setSource "elasticsearch", Ev.esSearch])

/-- `extracted is not None and extracted != ''` on a `dict.get` result. -/
def usableField : Option Json → Bool
  | some Json.null => false
  | some (Json.str s) => !(s == "")
  | some _ => true
  | none => false

/-- Message-extraction precedence of `coralogix_utils.get_coralogix_logs`
(lines 100-147): `data.message`, else `data.log`, else the stringified
`data` blob; with falsy `data`, the same precedence on the parsed
`userData` JSON string, else the stringified `userData` (or whole record
when `userData` is falsy). -/
def cgMessageOf (w : World) (log : Json) : String :=
  let log_data := log.getD "data" (Json.obj [])
  if log_data.truthy then
    let em := log_data.get "message"
    let el := log_data.get "log"
    if usableField em then pyStr (em.getD Json.null)
    else if usableField el then pyStr (el.getD Json.null)
    else pyStr log_data
  else
    let user_data := log.getD "userData" (Json.str "\x7b\x7d")
    match user_data with
    | Json.str s =>
      match w.json_loads s with
      | some parsed =>
        let em := parsed.get "message"
        let el := parsed.get "log"
        if usableField em then pyStr (em.getD Json.null)
        else if usableField el then pyStr (el.getD Json.null)
        else pyStr parsed
      | none => if user_data.truthy then pyStr user_data else pyStr log
    | _ => if user_data.truthy then pyStr user_data else pyStr log

/-- Timestamp extraction of `coralogix_utils.get_coralogix_logs` (lines
149-173): the `value` of the first `metadata` pair whose `key` equals
`"timestamp"`, parsed as ISO-8601 after `replace('Z', '+00:00')`; a
missing, falsy or unparsable value falls back to the current time. -/
def cgTimestampOf (pIso : String → Option Int) (now_ms : Int) (log : Json) : Int :=
  let ts := ((log.getD "metadata" (Json.arr [])).asArr.find?
      (fun m => match m.get "key" with
                | some (Json.str s) => s == "timestamp"
                | _ => false)).bind
    (fun m => m.get "value")
  match ts with
  | some v =>
    if v.truthy then
      match v with
      | Json.str s => (pIso (s.replace "Z" "+00:00")).getD now_ms
      | _ => now_ms
    else now_ms
  | none => now_ms

/-- The integer `timestamp` key of a normalized entry (all Coralogix and
CloudWatch entries carry one); used as Python's sort key. -/
def entryTs (e : Json) : Int :=
  match e.get "timestamp" with
  | some (Json.int n) => n
  | _ => 0

/-- Stable descending insertion by `entryTs` (helper of `sortTsDesc`). -/
def insertTsDesc (x : Json) : List Json → List Json
  | [] => [x]
  | y :: ys => if entryTs y < entryTs x then x :: y :: ys else y :: insertTsDesc x ys

/-- Python `list.sort(key=lambda x: x['timestamp'], reverse=True)`: a
stable descending sort by the entry timestamp. -/
def sortTsDesc : List Json → List Json
  | [] => []
  | x :: xs => insertTsDesc x (sortTsDesc xs)

/-- The `result.results` records collected from the newline-delimited
DataPrime response text (`coralogix_utils.get_coralogix_logs`, lines
62-86): strip, split on newlines, drop blank lines, parse each line
independently (parse failures are skipped), and concatenate the
`result.results` lists of the lines that have one. -/
def cgCollectLogs (w : World) (text : String) : List Json :=
  (((splitChar '\n' (stripStr text)).map stripStr).filter (fun l => !(l == ""))).foldl
    (fun acc line =>
      match w.json_loads line with
      | none => acc
      | some ld =>
        match ld.get "result" with
        | some r =>
          match r.get "results" with
          | some rs => acc ++ rs.asArr
          | none => acc
        | none => acc) []

/-- `coralogix_utils.get_coralogix_logs`.  Checks configuration, then the
task ARN, sets `crash_info['log_source'] = 'coralogix'` (before the
query), issues the DataPrime query, collects the `result.results`
records, normalizes each to `{timestamp, message}` and sorts descending
by timestamp; any request failure or empty collection yields `[]`. -/
def get_coralogix_logs (env : Env) (w : World) (pIso : String → Option Int)
    (now_ms : Int) (ci : CrashInfo) : List Json × CrashInfo × List Ev :=
  if !(pyTruthyOpt env.coralogix_api_key && pyTruthyOpt env.coralogix_region) then
    ([], ci, [Ev.cgAttempt])
  else if ci.task_arn.getD "" == "" then
    ([], ci, [Ev.cgAttempt])
  else
    let ci1 : CrashInfo := { ci with log_source := some "coralogix" }
    match w.cgText with
    | none => ([], ci1, [Ev.cgAttempt, Ev.setSource "coralogix", Ev.cgQuery])
    | some text =>
      let logs := cgCollectLogs w text
      if logs.isEmpty then
        ([], ci1, [Ev.cgAttempt, Ev.setSource "coralogix", Ev.cgQuery])
      else
        let log_entries := logs.map (fun log =>
          Json.obj [("timestamp", Json.int (cgTimestampOf pIso now_ms log)),
                    ("message", Json.str (cgMessageOf w log))])
        (sortTsDesc log_entries, ci1,
         [Ev.cgAttempt, Ev.setSource "coralogix", Ev.cgQuery])

/-- `ecs_utils.get_log_configuration_from_task_def`: describe the task
definition, find the container definition whose `name` equals the crashed
container's name, and return its `awslogs` options (`none` for a missing
ARN, API failure, missing name, no match, or a non-`awslogs` driver). -/
def get_log_configuration_from_task_def (w : World) (ci : CrashInfo) :
    Option Json × List Ev :=
  if !(pyTruthyOpt ci.task_definition_arn) then (none, [])
  else
    match w.taskDefResp with
    | none => (none, [Ev.ecsDescribeTaskDef])
    | some resp =>
      let task_def := resp.getD "taskDefinition" (Json.obj [])
      let container_name :=
        match ci.failed_container with
        | some fc => fc.name
        | none => ""
      if container_name == "" then (none, [Ev.ecsDescribeTaskDef])
      else
        match (task_def.getD "containerDefinitions" (Json.arr [])).asArr.find?
            (fun c => match c.get "name" with
                      | some (Json.str s) => s == container_name
                      | _ => false) with
        | some container_def =>
          let log_config := container_def.getD "logConfiguration" (Json.obj [])
          match log_config.get "logDriver" with
          | some (Json.str s) =>
            if s == "awslogs" then
              (some (log_config.getD "options" (Json.obj [])), [Ev.ecsDescribeTaskDef])
            else (none, [Ev.ecsDescribeTaskDef])
          | _ => (none, [Ev.ecsDescribeTaskDef])
        | none => (none, [Ev.ecsDescribeTaskDef])

/-- `logs_utils.get_logs_from_stream`: one `filter_log_events` read on the
group and stream, each event mapped to `{timestamp, message.strip()}` in
the backend's order; errors and empty streams yield `[]`. -/
def get_logs_from_stream (w : World) (_ci : CrashInfo)
    (log_group log_stream : String) : List Json × List Ev :=
  match w.events log_group log_stream with
  | none => ([], [Ev.cwFilterEvents])
  | some evs =>
    if evs.isEmpty then ([], [Ev.cwFilterEvents])
    else
      (evs.map (fun e => Json.obj [("timestamp", Json.int e.timestamp),
                                   ("message", Json.str (stripStr e.message))]),
       [Ev.cwFilterEvents])

/-- `logs_utils.get_logs_with_config`: build the candidate stream name
`[prefix/]container/task_id`, verify it by a prefix lookup, otherwise
search the 50 most-recently-active streams for one containing the task
id, then read the chosen stream; every failure yields `[]`. -/
def get_logs_with_config (w : World) (ci : CrashInfo) (log_config : Json)
    (task_id : String) : List Json × List Ev :=
  let log_group := (log_config.getD "awslogs-group" (Json.str "")).asStr
  let streamPfx := (log_config.getD "awslogs-stream-prefix" (Json.str "")).asStr
  if log_group == "" then ([], [])
  else
    let container_name :=
      match ci.failed_container with
      | some fc => fc.name
      | none => ""
    if container_name == "" then ([], [])
    else
      let log_stream :=
        if !(streamPfx == "") then streamPfx ++ "/" ++ container_name ++ "/" ++ task_id
        else container_name ++ "/" ++ task_id
      match w.streamsWithPfx log_group log_stream with
      | none => ([], [Ev.cwDescribeStreams])
      | some names =>
        match names with
        | [] =>
          match w.recentStreams log_group with
          | none => ([], [Ev.cwDescribeStreams, Ev.cwDescribeStreams])
          | some recents =>
            match recents.filter (fun s => strContains s task_id) with
            | [] => ([], [Ev.cwDescribeStreams, Ev.cwDescribeStreams])
            | m :: _ =>
              let r := get_logs_from_stream w ci log_group m
              (r.1, [Ev.cwDescribeStreams, Ev.cwDescribeStreams] ++ r.2)
        | actual :: _ =>
          let r := get_logs_from_stream w ci log_group actual
          (r.1, [Ev.cwDescribeStreams] ++ r.2)

/-- `logs_utils.get_cloudwatch_logs`: guard on container name and task
ARN, derive the task id from the ARN, fetch the authoritative log config
from the task definition, query the stream, and on a non-empty result set
`crash_info['log_source'] = 'cloudwatch'`. -/
def get_cloudwatch_logs (w : World) (ci : CrashInfo) :
    List Json × CrashInfo × List Ev :=
  match ci.failed_container with
  | none => ([], ci, [Ev.cwAttempt])
  | some fc =>
    let container_name := fc.name
    let task_arn := ci.task_arn.getD ""
    if container_name == "" || task_arn == "" then ([], ci, [Ev.cwAttempt])
    else
      let task_id := (splitChar '/' task_arn).getLastD ""
      let cfgR := get_log_configuration_from_task_def w ci
      match cfgR.1 with
      | some log_config =>
        let lr := get_logs_with_config w ci log_config task_id
        if lr.1.isEmpty then ([], ci, [Ev.cwAttempt] ++ cfgR.2 ++ lr.2)
        else
          (lr.1, { ci with log_source := some "cloudwatch" },
           [Ev.cwAttempt] ++ cfgR.2 ++ lr.2 ++ [Ev.setSource "cloudwatch"])
      | none => ([], ci, [Ev.cwAttempt] ++ cfgR.2)

/-- Lines 58-65 of `logs_utils.get_recent_logs`: the terminal CloudWatch
attempt.  Reached for every value `detect_log_destination` can produce,
so the guard on line 58 is a tautology there and lines 67-68 are dead.
If CloudWatch returned entries and the hint is not already a managed
backend, the hint is set to `cloudwatch`; the result is returned as-is. -/
def cloudwatchTail (w : World) (ci : CrashInfo) (tr : List Ev) :
    List Json × CrashInfo × List Ev :=
  let r := get_cloudwatch_logs w ci
  let sup : List Ev := if r.1.isEmpty then [] else [Ev.supplied "cloudwatch"]
  if !r.1.isEmpty
      && !(r.2.1.log_source == some "coralogix"
            || r.2.1.log_source == some "elasticsearch") then
    (r.1, { r.2.1 with log_source := some "cloudwatch" },
     tr ++ r.2.2 ++ [Ev.setSource "cloudwatch"] ++ sup)
  else
    (r.1, r.2.1, tr ++ r.2.2 ++ sup)

/-- `logs_utils.get_recent_logs`: the log resolution orchestrator.  Guard
on `failed_container`, detect the single primary destination, try it, and
on an empty (or CloudWatch) destination fall through to the terminal
CloudWatch attempt.  A non-empty primary result is returned immediately
after force-setting the hint (`supplied` marks that return). -/
def get_recent_logs (env : Env) (w : World) (pIso : String → Option Int)
    (now_ms : Int) (ci : CrashInfo) : List Json × CrashInfo × List Ev :=
  match ci.failed_container with
  | none => ([], ci, [])
  | some _ =>
    let log_destination := detect_log_destination env
    if log_destination == "elasticsearch" then
      let r := get_elasticsearch_logs env w ci
      if r.1.isEmpty then cloudwatchTail w r.2.1 r.2.2
      else
        (r.1, { r.2.1 with log_source := some "elasticsearch" },
         r.2.2 ++ [Ev.setSource "elasticsearch", Ev.supplied "elasticsearch"])
    else if log_destination == "coralogix" then
      let r := get_coralogix_logs env w pIso now_ms ci
      if r.1.isEmpty then cloudwatchTail w r.2.1 r.2.2
      else
        (r.1, { r.2.1 with log_source := some "coralogix" },
         r.2.2 ++ [Ev.setSource "coralogix", Ev.supplied "coralogix"])
    else
      cloudwatchTail w ci []

/-- Events an Elasticsearch adapter call can emit. -/
def esEvOk (e : Ev) : Bool :=
  e == Ev.esAttempt || e == Ev.setSource "elasticsearch" || e == Ev.esSearch

/-- Events a Coralogix adapter call can emit. -/
def cgEvOk (e : Ev) : Bool :=
  e == Ev.cgAttempt || e == Ev.setSource "coralogix" || e == Ev.cgQuery

/-- Events the CloudWatch adapter chain can emit. -/
def cwEvOk (e : Ev) : Bool :=
  e == Ev.cwAttempt || e == Ev.ecsDescribeTaskDef || e == Ev.cwDescribeStreams
    || e == Ev.cwFilterEvents || e == Ev.setSource "cloudwatch"

/-- Whether an event is not a `supplied` marker. -/
def noSup : Ev → Bool
  | .supplied _ => false
  | _ => true

/-- Scans a trace: once some backend `b` has supplied the result, every
later `setSource` write must write `b` again (the invariant of §3 of the
specification). -/
def writesRespect : List Ev → Option String → Bool
  | [], _ => true
  | Ev.setSource s :: rest, some b => s == b && writesRespect rest (some b)
  | Ev.supplied b :: rest, none => writesRespect rest (some b)
  | _ :: rest, cur => writesRespect rest cur

/-- The backends that supplied a non-empty result during a run, in order. -/
def suppliedEvents (tr : List Ev) : List String :=
  tr.filterMap (fun e => match e with | Ev.supplied b => some b | _ => none)

/-- The backend that supplied the returned entries, read off the trace. -/
def supplierOf (tr : List Ev) : Option String :=
  (suppliedEvents tr).head?

/-- Whether a normalized entry's `timestamp` is a non-negative integer
(epoch milliseconds), the LogEntry invariant claimed by the spec. -/
def entryTimestampOk (e : Json) : Bool :=
  match e.get "timestamp" with
  | some (Json.int n) => decide (0 ≤ n)
  | _ => false

/-- A fully configured-and-enabled environment for both managed backends. -/
def envBoth : Env :=
  { enable_elasticsearch := some "true", elasticsearch_endpoint := some "https://es"
    elasticsearch_username := some "u", elasticsearch_password := some "p"
    enable_coralogix := some "true", coralogix_api_key := some "k"
    coralogix_region := some "eu" }

/-- A describe-task-definition response routing container `web` to the
`awslogs` driver with group `/ecs/app` and stream prefix `ecs`. -/
def tdRespWeb : Json :=
  Json.obj [("taskDefinition", Json.obj [("containerDefinitions", Json.arr [
    Json.obj [("name", Json.str "web"),
              ("logConfiguration", Json.obj [("logDriver", Json.str "awslogs"),
                ("options", Json.obj [("awslogs-group", Json.str "/ecs/app"),
                  ("awslogs-stream-prefix", Json.str "ecs")])])]])])]

/-- A crash context with task id `abc123` and failed container `web`. -/
def ciWeb : CrashInfo :=
  { task_arn := some "arn:aws:ecs:us-east-1:1:task/cluster/abc123"
    service_name := "svc", failed_container := some { name := "web" }
    task_definition_arn := some "td:1", log_source := none
    recent_logs := none, logs_count := none }

/-- C1 world: Elasticsearch answers with zero hits; CloudWatch holds one
event for stream `ecs/web/abc123`. -/
def wC1 : World :=
  { esBody := some (Json.obj [("hits", Json.obj [("hits", Json.arr [])])])
    cgText := some "", json_loads := fun _ => none
    taskDefResp := some tdRespWeb
    streamsWithPfx := fun _ s =>
      if s == "ecs/web/abc123" then some ["ecs/web/abc123"] else some []
    recentStreams := fun _ => some []
    events := fun _ s =>
      if s == "ecs/web/abc123" then some [{ timestamp := 1000, message := " hi " }]
      else some [] }

/-- An Elasticsearch hit whose source document has an ISO-8601
`@timestamp` string. -/
def esHitIso : Json :=
  Json.obj [("_source", Json.obj [("@timestamp", Json.str "2025-09-21T09:59:32Z"),
                                  ("message", Json.str "boom")])]

/-- C2 world: Elasticsearch answers with one hit. -/
def wC2 : World :=
  { wC1 with esBody := some (Json.obj [("hits", Json.obj [("hits", Json.arr [esHitIso])])]) }

/-- A DataPrime record whose metadata carries an ISO timestamp and whose
structured data carries a message. -/
def cgRecordIso : Json :=
  Json.obj [
    ("metadata", Json.arr [Json.obj [("key", Json.str "timestamp"),
      ("value", Json.str "2025-09-21T09:59:32.100026178")]]),
    ("data", Json.obj [("message", Json.str "boom")])]

/-- C3 witness world: the DataPrime response is one line whose
`result.results` holds `cgRecordIso`. -/
def wC3 : World :=
  { wC2 with
    cgText := some "x"
    json_loads := fun s =>
      if s == "x" then
        some (Json.obj [("result", Json.obj [("results", Json.arr [cgRecordIso])])])
      else none }

/-- C3 witness environment: only Coralogix enabled. -/
def envCgOnly : Env := { envBoth with enable_elasticsearch := some "false" }

/-- An ISO-parse oracle returning a fixed non-negative epoch-ms value. -/
def pIsoFixed : String → Option Int := fun _ => some 1758448772100

/-- A crash context with no task ARN but a present failed container. -/
def ciNoTask : CrashInfo := { ciWeb with task_arn := none }

/-- An ISO-parse oracle that always fails. -/
def pIsoNone : String → Option Int := fun _ => none

/-- The normalized entry the Coralogix adapter produces for
`cgRecordIso` under `pIsoFixed`. -/
def cgEntryW : Json :=
  Json.obj [("timestamp", Json.int 1758448772100), ("message", Json.str "boom")]

/-- Monotonicity of `List.all` along a pointwise implication. -/
theorem all_imp {α : Type} {p q : α → Bool} (h : ∀ e, p e = true → q e = true)
    (l : List α) (hl : l.all p = true) : l.all q = true := by
  rw [List.all_eq_true] at *
  exact fun e he => h e (hl e he)

/-- Every event of an Elasticsearch adapter call is an ES-adapter event. -/
theorem es_trace_all (env : Env) (w : World) (ci : CrashInfo) :
    ((get_elasticsearch_logs env w ci).2.2).all esEvOk = true := by
  unfold get_elasticsearch_logs
  split
  · rfl
  · split
    · rfl
    · cases w.esBody <;> rfl

/-- Every event of a Coralogix adapter call is a Coralogix-adapter event. -/
theorem cg_trace_all (env : Env) (w : World) (pIso : String → Option Int)
    (now_ms : Int) (ci : CrashInfo) :
    ((get_coralogix_logs env w pIso now_ms ci).2.2).all cgEvOk = true := by
  unfold get_coralogix_logs
  split
  · rfl
  · split
    · rfl
    · cases w.cgText with
      | none => rfl
      | some text => simp only []; split <;> rfl

/-- The task-definition lookup emits at most the control-plane call. -/
theorem glcftd_trace_all (w : World) (ci : CrashInfo) :
    ((get_log_configuration_from_task_def w ci).2).all
      (fun e => e == Ev.ecsDescribeTaskDef) = true := by
  unfold get_log_configuration_from_task_def
  split
  · rfl
  · cases w.taskDefResp with
    | none => rfl
    | some resp =>
      simp only []
      split
      · rfl
      · split
        · split
          · split <;> rfl
          · rfl
        · rfl

/-- The stream read emits only the `filter_log_events` call. -/
theorem glfs_trace_all (w : World) (ci : CrashInfo) (g s : String) :
    ((get_logs_from_stream w ci g s).2).all (fun e => e == Ev.cwFilterEvents) = true := by
  unfold get_logs_from_stream
  cases w.events g s with
  | none => rfl
  | some evs => simp only []; split <;> rfl

/-- Every event of `get_logs_with_config` is a CloudWatch-chain event. -/
theorem glwc_trace_all (w : World) (ci : CrashInfo) (cfg : Json) (tid : String) :
    ((get_logs_with_config w ci cfg tid).2).all cwEvOk = true := by
  have hfs : ∀ g s, ((get_logs_from_stream w ci g s).2).all cwEvOk = true := by
    intro g s
    exact all_imp (by intro e he; cases e <;> simp_all [cwEvOk]) _ (glfs_trace_all w ci g s)
  unfold get_logs_with_config
  simp only []
  repeat' split
  all_goals simp_all [List.all_append, hfs, cwEvOk]
  all_goals exact fun x hx => hfs _ _ x hx

/-- Every event of the CloudWatch adapter is a CloudWatch-chain event. -/
theorem cw_trace_all (w : World) (ci : CrashInfo) :
    ((get_cloudwatch_logs w ci).2.2).all cwEvOk = true := by
  have htd : ((get_log_configuration_from_task_def w ci).2).all cwEvOk = true :=
    all_imp (by intro e he; cases e <;> simp_all [cwEvOk]) _ (glcftd_trace_all w ci)
  have hwc : ∀ cfg tid, ((get_logs_with_config w ci cfg tid).2).all cwEvOk = true :=
    fun cfg tid => glwc_trace_all w ci cfg tid
  unfold get_cloudwatch_logs
  simp only []
  repeat' split
  all_goals simp_all [List.all_append, cwEvOk]
  all_goals exact fun x hx => hwc _ _ x hx

/-- The CloudWatch adapter always records its attempt. -/
theorem cw_mem_attempt (w : World) (ci : CrashInfo) :
    Ev.cwAttempt ∈ (get_cloudwatch_logs w ci).2.2 := by
  unfold get_cloudwatch_logs
  simp only []
  repeat' split
  all_goals simp

/-- With a falsy task ARN the Elasticsearch adapter returns empty without
touching the network or the crash context. -/
theorem es_task_falsy (env : Env) (w : World) (ci : CrashInfo)
    (h : pyTruthyOpt ci.task_arn = false) :
    get_elasticsearch_logs env w ci = ([], ci, [Ev.esAttempt]) := by
  unfold get_elasticsearch_logs
  split
  · rfl
  · simp [h]

/-- With a falsy task ARN the Coralogix adapter returns empty without
touching the network or the crash context. -/
theorem cg_task_falsy (env : Env) (w : World) (pIso : String → Option Int)
    (now_ms : Int) (ci : CrashInfo) (h : ci.task_arn.getD "" = "") :
    get_coralogix_logs env w pIso now_ms ci = ([], ci, [Ev.cgAttempt]) := by
  unfold get_coralogix_logs
  split
  · rfl
  · simp [h]

/-- With a falsy task ARN the CloudWatch adapter returns empty before the
task-definition lookup: no network call, no write. -/
theorem cw_task_falsy (w : World) (ci : CrashInfo) (h : ci.task_arn.getD "" = "") :
    get_cloudwatch_logs w ci = ([], ci, [Ev.cwAttempt]) := by
  unfold get_cloudwatch_logs
  cases hfc : ci.failed_container with
  | none => rfl
  | some fc => simp [h]

/-- The Elasticsearch adapter never changes the identifier fields of the
crash context. -/
theorem es_preserves (env : Env) (w : World) (ci : CrashInfo) :
    ((get_elasticsearch_logs env w ci).2.1).failed_container = ci.failed_container
      ∧ ((get_elasticsearch_logs env w ci).2.1).task_arn = ci.task_arn
      ∧ ((get_elasticsearch_logs env w ci).2.1).task_definition_arn
          = ci.task_definition_arn := by
  unfold get_elasticsearch_logs
  repeat' split
  all_goals simp

/-- The Coralogix adapter never changes the identifier fields of the
crash context. -/
theorem cg_preserves (env : Env) (w : World) (pIso : String → Option Int)
    (now_ms : Int) (ci : CrashInfo) :
    ((get_coralogix_logs env w pIso now_ms ci).2.1).failed_container = ci.failed_container
      ∧ ((get_coralogix_logs env w pIso now_ms ci).2.1).task_arn = ci.task_arn
      ∧ ((get_coralogix_logs env w pIso now_ms ci).2.1).task_definition_arn
          = ci.task_definition_arn := by
  unfold get_coralogix_logs
  repeat' split
  all_goals simp [apply_ite]

/-- The CloudWatch adapter either returns no entries or has set the
hint to `cloudwatch` on the crash context it returns. -/
theorem cw_disj (w : World) (ci : CrashInfo) :
    (get_cloudwatch_logs w ci).1 = []
      ∨ (get_cloudwatch_logs w ci).2.1.log_source = some "cloudwatch" := by
  unfold get_cloudwatch_logs
  cases hfc : ci.failed_container with
  | none => exact Or.inl rfl
  | some fc =>
    simp only []
    by_cases hg : (fc.name == "" || (ci.task_arn.getD "") == "") = true
    · rw [if_pos hg]
      exact Or.inl rfl
    · rw [if_neg hg]
      cases hcfg : (get_log_configuration_from_task_def w ci).1 with
      | none => exact Or.inl rfl
      | some cfg =>
        simp only []
        by_cases hl : ((get_logs_with_config w ci cfg
            ((splitChar '/' (ci.task_arn.getD "")).getLastD "")).1).isEmpty = true
        · rw [if_pos hl]
          exact Or.inl rfl
        · rw [if_neg hl]
          exact Or.inr rfl

/-- When the CloudWatch adapter returns entries it has set the hint. -/
theorem cw_success_hint (w : World) (ci : CrashInfo)
    (h : (get_cloudwatch_logs w ci).1.isEmpty = false) :
    (get_cloudwatch_logs w ci).2.1.log_source = some "cloudwatch" := by
  rcases cw_disj w ci with h0 | h0
  · rw [h0] at h
    simp at h
  · exact h0

/-- The stream read ignores the crash context entirely. -/
theorem glfs_ci_irrel (w : World) (a b : CrashInfo) (g s : String) :
    get_logs_from_stream w a g s = get_logs_from_stream w b g s := rfl

/-- The task-definition lookup depends only on the task-definition ARN
and the failed container. -/
theorem glcftd_congr (w : World) (a b : CrashInfo)
    (h3 : a.task_definition_arn = b.task_definition_arn)
    (h1 : a.failed_container = b.failed_container) :
    get_log_configuration_from_task_def w a = get_log_configuration_from_task_def w b := by
  unfold get_log_configuration_from_task_def
  rw [h3, h1]

/-- `get_logs_with_config` depends on the crash context only through the
failed container. -/
theorem glwc_congr (w : World) (a b : CrashInfo)
    (h1 : a.failed_container = b.failed_container) (cfg : Json) (tid : String) :
    get_logs_with_config w a cfg tid = get_logs_with_config w b cfg tid := by
  unfold get_logs_with_config
  rw [h1]
  simp only [glfs_ci_irrel w a b]

/-- The CloudWatch adapter's entries and trace depend on the crash
context only through its identifier fields (the hint and cached-results
fields do not influence the query). -/
theorem cw_congr (w : World) (a b : CrashInfo)
    (h1 : a.failed_container = b.failed_container)
    (h2 : a.task_arn = b.task_arn)
    (h3 : a.task_definition_arn = b.task_definition_arn) :
    (get_cloudwatch_logs w a).1 = (get_cloudwatch_logs w b).1
      ∧ (get_cloudwatch_logs w a).2.2 = (get_cloudwatch_logs w b).2.2 := by
  unfold get_cloudwatch_logs
  rw [h1, h2, glcftd_congr w a b h3 h1]
  simp only [glwc_congr w a b h1]
  cases b.failed_container with
  | none => exact ⟨rfl, rfl⟩
  | some fc =>
    simp only []
    repeat' split
    all_goals simp_all

/-- Prepending supplied-free events does not affect `writesRespect` from
the initial state. -/
theorem wr_append (T R : List Ev) (h : T.all noSup = true) :
    writesRespect (T ++ R) none = writesRespect R none := by
  induction T with
  | nil => rfl
  | cons e t ih =>
    rw [List.all_cons, Bool.and_eq_true] at h
    cases e <;> simp_all [writesRespect, noSup]

/-- A supplied-free trace contributes no supplied events. -/
theorem sup_events_nil (T : List Ev) (h : T.all noSup = true) :
    suppliedEvents T = [] := by
  induction T with
  | nil => rfl
  | cons e t ih =>
    rw [List.all_cons, Bool.and_eq_true] at h
    cases e <;> simp_all [suppliedEvents, noSup]

/-- `suppliedEvents` distributes over trace concatenation. -/
theorem sup_events_append (a b : List Ev) :
    suppliedEvents (a ++ b) = suppliedEvents a ++ suppliedEvents b := by
  simp [suppliedEvents, List.filterMap_append]

/-- Elasticsearch adapter traces contain no supplied event. -/
theorem es_trace_nosup (env : Env) (w : World) (ci : CrashInfo) :
    ((get_elasticsearch_logs env w ci).2.2).all noSup = true :=
  all_imp (by intro e he; cases e <;> simp_all [esEvOk, noSup]) _ (es_trace_all env w ci)

/-- Coralogix adapter traces contain no supplied event. -/
theorem cg_trace_nosup (env : Env) (w : World) (pIso : String → Option Int)
    (now_ms : Int) (ci : CrashInfo) :
    ((get_coralogix_logs env w pIso now_ms ci).2.2).all noSup = true :=
  all_imp (by intro e he; cases e <;> simp_all [cgEvOk, noSup]) _
    (cg_trace_all env w pIso now_ms ci)

/-- CloudWatch adapter traces contain no supplied event. -/
theorem cw_trace_nosup (w : World) (ci : CrashInfo) :
    ((get_cloudwatch_logs w ci).2.2).all noSup = true :=
  all_imp (by intro e he; cases e <;> simp_all [cwEvOk, noSup]) _ (cw_trace_all w ci)

/-- Shape of the terminal CloudWatch attempt when the adapter returned
entries: the hint is (re)set to `cloudwatch` and the run ends with the
write and the supplied marker. -/
theorem cwTail_success_eq (w : World) (ci : CrashInfo) (tr : List Ev)
    (hne : (get_cloudwatch_logs w ci).1.isEmpty = false) :
    cloudwatchTail w ci tr
      = ((get_cloudwatch_logs w ci).1,
         { (get_cloudwatch_logs w ci).2.1 with log_source := some "cloudwatch" },
         tr ++ (get_cloudwatch_logs w ci).2.2
           ++ [Ev.setSource "cloudwatch"] ++ [Ev.supplied "cloudwatch"]) := by
  unfold cloudwatchTail
  simp only []
  have hc : (!(get_cloudwatch_logs w ci).1.isEmpty
      && !((get_cloudwatch_logs w ci).2.1.log_source == some "coralogix"
            || (get_cloudwatch_logs w ci).2.1.log_source == some "elasticsearch"))
        = true := by
    rw [hne, cw_success_hint w ci hne]
    rfl
  rw [if_pos hc, hne]
  rfl

/-- Shape of the terminal CloudWatch attempt when the adapter returned
nothing: the crash context passes through untouched. -/
theorem cwTail_empty_eq (w : World) (ci : CrashInfo) (tr : List Ev)
    (he : (get_cloudwatch_logs w ci).1.isEmpty = true) :
    cloudwatchTail w ci tr
      = ((get_cloudwatch_logs w ci).1, (get_cloudwatch_logs w ci).2.1,
         tr ++ (get_cloudwatch_logs w ci).2.2) := by
  unfold cloudwatchTail
  simp only []
  have hc : (!(get_cloudwatch_logs w ci).1.isEmpty
      && !((get_cloudwatch_logs w ci).2.1.log_source == some "coralogix"
            || (get_cloudwatch_logs w ci).2.1.log_source == some "elasticsearch"))
        = false := by
    rw [he]
    rfl
  rw [hc, he]
  simp

/-- The terminal CloudWatch attempt returns exactly the adapter's entries. -/
theorem cwTail_logs (w : World) (ci : CrashInfo) (tr : List Ev) :
    (cloudwatchTail w ci tr).1 = (get_cloudwatch_logs w ci).1 := by
  cases h : (get_cloudwatch_logs w ci).1.isEmpty with
  | true => rw [cwTail_empty_eq w ci tr h]
  | false => rw [cwTail_success_eq w ci tr h]

/-- Every event in the terminal CloudWatch attempt's trace is either
inherited from the prefix, a CloudWatch-chain event, or the supplied
marker for CloudWatch. -/
theorem cwTail_trace (w : World) (ci : CrashInfo) (tr : List Ev) :
    ∀ e ∈ (cloudwatchTail w ci tr).2.2,
      e ∈ tr ∨ cwEvOk e = true ∨ e = Ev.supplied "cloudwatch" := by
  have hcw := List.all_eq_true.mp (cw_trace_all w ci)
  cases h : (get_cloudwatch_logs w ci).1.isEmpty with
  | true =>
    rw [cwTail_empty_eq w ci tr h]
    intro e he
    simp only [List.mem_append] at he
    rcases he with he | he
    · exact Or.inl he
    · exact Or.inr (Or.inl (hcw e he))
  | false =>
    rw [cwTail_success_eq w ci tr h]
    intro e he
    simp only [List.mem_append, List.mem_singleton] at he
    rcases he with ((he | he) | he) | he
    · exact Or.inl he
    · exact Or.inr (Or.inl (hcw e he))
    · subst he
      exact Or.inr (Or.inl (by rfl))
    · exact Or.inr (Or.inr he)

/-- The adapter's own events survive into the terminal attempt's trace. -/
theorem cwTail_mem_cw (w : World) (ci : CrashInfo) (tr : List Ev) :
    ∀ e ∈ (get_cloudwatch_logs w ci).2.2, e ∈ (cloudwatchTail w ci tr).2.2 := by
  intro e he
  cases h : (get_cloudwatch_logs w ci).1.isEmpty with
  | true =>
    rw [cwTail_empty_eq w ci tr h]
    simp [List.mem_append, he]
  | false =>
    rw [cwTail_success_eq w ci tr h]
    simp [List.mem_append, he]

/-- A successful terminal CloudWatch attempt supplies `cloudwatch`, sets
the hint to `cloudwatch`, and respects the write discipline, provided the
inherited prefix carries no supplied event. -/
theorem cwTail_success (w : World) (ci : CrashInfo) (tr : List Ev)
    (h : tr.all noSup = true)
    (hne : (get_cloudwatch_logs w ci).1.isEmpty = false) :
    suppliedEvents (cloudwatchTail w ci tr).2.2 = ["cloudwatch"]
      ∧ (cloudwatchTail w ci tr).2.1.log_source = some "cloudwatch"
      ∧ writesRespect (cloudwatchTail w ci tr).2.2 none = true := by
  have hnosup := cw_trace_nosup w ci
  rw [cwTail_success_eq w ci tr hne]
  have hT : (tr ++ (get_cloudwatch_logs w ci).2.2
      ++ [Ev.setSource "cloudwatch"]).all noSup = true := by
    simp only [List.all_append, Bool.and_eq_true]
    exact ⟨⟨h, hnosup⟩, rfl⟩
  refine ⟨?_, by simp, ?_⟩
  · rw [sup_events_append _ [Ev.supplied "cloudwatch"], sup_events_nil _ hT]
    rfl
  · rw [wr_append _ _ hT]
    rfl

/-- An empty terminal CloudWatch attempt supplies nothing and leaves the
crash context as the adapter left it. -/
theorem cwTail_empty_sup (w : World) (ci : CrashInfo) (tr : List Ev)
    (h : tr.all noSup = true)
    (he : (get_cloudwatch_logs w ci).1.isEmpty = true) :
    suppliedEvents (cloudwatchTail w ci tr).2.2 = [] := by
  rw [cwTail_empty_eq w ci tr he]
  apply sup_events_nil
  simp only [List.all_append, Bool.and_eq_true]
  exact ⟨h, cw_trace_nosup w ci⟩

/-- Without a failed container the orchestrator does nothing at all. -/
theorem grl_none_eq (env : Env) (w : World) (pIso : String → Option Int)
    (now_ms : Int) (ci : CrashInfo) (h : ci.failed_container = none) :
    get_recent_logs env w pIso now_ms ci = ([], ci, []) := by
  unfold get_recent_logs
  rw [h]

/-- Shape of a resolution run whose detected destination is
`elasticsearch`. -/
theorem grl_es_eq (env : Env) (w : World) (pIso : String → Option Int)
    (now_ms : Int) (ci : CrashInfo) (fc : Container)
    (hdest : detect_log_destination env = "elasticsearch")
    (hfc : ci.failed_container = some fc) :
    get_recent_logs env w pIso now_ms ci
      = (if (get_elasticsearch_logs env w ci).1.isEmpty = true then
           cloudwatchTail w (get_elasticsearch_logs env w ci).2.1
             (get_elasticsearch_logs env w ci).2.2
         else
           ((get_elasticsearch_logs env w ci).1,
            { (get_elasticsearch_logs env w ci).2.1 with log_source := some "elasticsearch" },
            (get_elasticsearch_logs env w ci).2.2
              ++ [Ev.setSource "elasticsearch", Ev.supplied "elasticsearch"])) := by
  unfold get_recent_logs
  rw [hfc]
  simp only [hdest]
  rfl

/-- Shape of a resolution run whose detected destination is `coralogix`. -/
theorem grl_cg_eq (env : Env) (w : World) (pIso : String → Option Int)
    (now_ms : Int) (ci : CrashInfo) (fc : Container)
    (hdest : detect_log_destination env = "coralogix")
    (hfc : ci.failed_container = some fc) :
    get_recent_logs env w pIso now_ms ci
      = (if (get_coralogix_logs env w pIso now_ms ci).1.isEmpty = true then
           cloudwatchTail w (get_coralogix_logs env w pIso now_ms ci).2.1
             (get_coralogix_logs env w pIso now_ms ci).2.2
         else
           ((get_coralogix_logs env w pIso now_ms ci).1,
            { (get_coralogix_logs env w pIso now_ms ci).2.1 with log_source := some "coralogix" },
            (get_coralogix_logs env w pIso now_ms ci).2.2
              ++ [Ev.setSource "coralogix", Ev.supplied "coralogix"])) := by
  unfold get_recent_logs
  rw [hfc]
  simp only [hdest]
  rfl

/-- Shape of a resolution run whose detected destination is `cloudwatch`. -/
theorem grl_cw_eq (env : Env) (w : World) (pIso : String → Option Int)
    (now_ms : Int) (ci : CrashInfo) (fc : Container)
    (hdest : detect_log_destination env = "cloudwatch")
    (hfc : ci.failed_container = some fc) :
    get_recent_logs env w pIso now_ms ci = cloudwatchTail w ci [] := by
  unfold get_recent_logs
  rw [hfc]
  simp only [hdest]
  rfl

/-- Claim C1 (amended): when the search-engine backend is configured and
enabled it is the single primary destination: the DataPrime backend is
never attempted or queried (even if it too is configured and enabled);
a non-empty search-engine result is returned as-is with no CloudWatch
attempt, and an empty search-engine result falls back directly to the
CloudWatch adapter. -/
theorem search_primary_dataprime_skipped
    (env : Env) (w : World) (pIso : String → Option Int) (now_ms : Int)
    (ci : CrashInfo) (hes : es_detect_ok env = true) (_hcg : cg_detect_ok env = true) :
    Ev.cgAttempt ∉ (get_recent_logs env w pIso now_ms ci).2.2
      ∧ Ev.cgQuery ∉ (get_recent_logs env w pIso now_ms ci).2.2
      ∧ ((get_elasticsearch_logs env w ci).1.isEmpty = false →
          ci.failed_container.isSome = true →
          (get_recent_logs env w pIso now_ms ci).1 = (get_elasticsearch_logs env w ci).1
            ∧ Ev.cwAttempt ∉ (get_recent_logs env w pIso now_ms ci).2.2)
      ∧ ((get_elasticsearch_logs env w ci).1.isEmpty = true →
          ci.failed_container.isSome = true →
          Ev.cwAttempt ∈ (get_recent_logs env w pIso now_ms ci).2.2) := by
  have hdest : detect_log_destination env = "elasticsearch" := by
    unfold detect_log_destination
    rw [hes]
    rfl
  have hestr := List.all_eq_true.mp (es_trace_all env w ci)
  cases hfc : ci.failed_container with
  | none =>
    rw [grl_none_eq env w pIso now_ms ci hfc]
    simp [hfc]
  | some fc =>
    rw [grl_es_eq env w pIso now_ms ci fc hdest hfc]
    by_cases hre : (get_elasticsearch_logs env w ci).1.isEmpty = true
    · rw [if_pos hre]
      refine ⟨?_, ?_, ?_, ?_⟩
      · intro hmem
        rcases cwTail_trace w _ _ _ hmem with hin | hok | hsup
        · have := hestr _ hin
          simp [esEvOk] at this
        · simp [cwEvOk] at hok
        · exact Ev.noConfusion hsup
      · intro hmem
        rcases cwTail_trace w _ _ _ hmem with hin | hok | hsup
        · have := hestr _ hin
          simp [esEvOk] at this
        · simp [cwEvOk] at hok
        · exact Ev.noConfusion hsup
      · intro hne _
        rw [hre] at hne
        exact Bool.noConfusion hne
      · intro _ _
        exact cwTail_mem_cw w _ _ Ev.cwAttempt (cw_mem_attempt w _)
    · rw [if_neg hre]
      refine ⟨?_, ?_, ?_, ?_⟩
      · intro hmem
        simp only [List.mem_append] at hmem
        rcases hmem with hin | hin
        · have := hestr _ hin
          simp [esEvOk] at this
        · simp at hin
      · intro hmem
        simp only [List.mem_append] at hmem
        rcases hmem with hin | hin
        · have := hestr _ hin
          simp [esEvOk] at this
        · simp at hin
      · intro _ _
        refine ⟨rfl, ?_⟩
        intro hmem
        simp only [List.mem_append] at hmem
        rcases hmem with hin | hin
        · have := hestr _ hin
          simp [esEvOk] at this
        · simp at hin
      · intro h1 _
        exact absurd h1 hre

/-- Claim C1 (counterexample): with both the search-engine and DataPrime
backends fully configured and enabled and the search-engine backend
returning an empty result, the orchestrator never attempts or queries
DataPrime: it falls back directly to CloudWatch, which supplies the
returned entries. -/
theorem search_empty_skips_dataprime_cex :
    es_detect_ok envBoth = true
      ∧ cg_detect_ok envBoth = true
      ∧ (get_elasticsearch_logs envBoth wC1 ciWeb).1 = []
      ∧ Ev.cgAttempt ∉ (get_recent_logs envBoth wC1 pIsoNone 0 ciWeb).2.2
      ∧ Ev.cgQuery ∉ (get_recent_logs envBoth wC1 pIsoNone 0 ciWeb).2.2
      ∧ Ev.cwAttempt ∈ (get_recent_logs envBoth wC1 pIsoNone 0 ciWeb).2.2
      ∧ ((get_recent_logs envBoth wC1 pIsoNone 0 ciWeb).1).isEmpty = false :=
  ⟨by decide, by decide, rfl, by decide, by decide, by decide, by decide⟩

/-- Claim C1 (witness for the amended theorem): the hypotheses hold at
the concrete both-enabled environment, and DataPrime is never attempted. -/
theorem search_primary_dataprime_skipped_wit :
    Ev.cgAttempt ∉ (get_recent_logs envBoth wC2 pIsoNone 0 ciWeb).2.2 :=
  (search_primary_dataprime_skipped envBoth wC2 pIsoNone 0 ciWeb
    (by decide) (by decide)).1

/-- The detected destination is always one of the three backends. -/
theorem detect_cases (env : Env) :
    detect_log_destination env = "elasticsearch"
      ∨ detect_log_destination env = "coralogix"
      ∨ detect_log_destination env = "cloudwatch" := by
  unfold detect_log_destination
  split
  · exact Or.inl rfl
  · split
    · exact Or.inr (Or.inl rfl)
    · exact Or.inr (Or.inr rfl)

/-- Closing step for a primary-backend success: the trace ends in the
backend's own write and supplied marker. -/
theorem primary_success_trace (T : List Ev) (b : String) (h : T.all noSup = true) :
    suppliedEvents (T ++ [Ev.setSource b, Ev.supplied b]) = [b]
      ∧ writesRespect (T ++ [Ev.setSource b, Ev.supplied b]) none = true := by
  constructor
  · rw [sup_events_append, sup_events_nil _ h]
    rfl
  · rw [wr_append _ _ h]
    rfl

/-- Claim C2: once a backend supplies a non-empty result, the run ends
with exactly that supplied event, the `log_source` hint equals the
supplier, every write at or after the success writes the supplier, and
the returned entries are exactly that backend's adapter output. -/
theorem backend_hint_matches_supplier
    (env : Env) (w : World) (pIso : String → Option Int) (now_ms : Int)
    (ci : CrashInfo)
    (hne : ((get_recent_logs env w pIso now_ms ci).1).isEmpty = false) :
    (suppliedEvents (get_recent_logs env w pIso now_ms ci).2.2).length = 1
      ∧ (get_recent_logs env w pIso now_ms ci).2.1.log_source
          = supplierOf (get_recent_logs env w pIso now_ms ci).2.2
      ∧ writesRespect (get_recent_logs env w pIso now_ms ci).2.2 none = true
      ∧ (supplierOf (get_recent_logs env w pIso now_ms ci).2.2 = some "elasticsearch" →
          (get_recent_logs env w pIso now_ms ci).1 = (get_elasticsearch_logs env w ci).1)
      ∧ (supplierOf (get_recent_logs env w pIso now_ms ci).2.2 = some "coralogix" →
          (get_recent_logs env w pIso now_ms ci).1
            = (get_coralogix_logs env w pIso now_ms ci).1)
      ∧ (supplierOf (get_recent_logs env w pIso now_ms ci).2.2 = some "cloudwatch" →
          (get_recent_logs env w pIso now_ms ci).1 = (get_cloudwatch_logs w ci).1) := by
  cases hfc : ci.failed_container with
  | none =>
    rw [grl_none_eq env w pIso now_ms ci hfc] at hne
    exact Bool.noConfusion hne
  | some fc =>
    rcases detect_cases env with hdest | hdest | hdest
    · -- primary destination: elasticsearch
      rw [grl_es_eq env w pIso now_ms ci fc hdest hfc] at hne ⊢
      by_cases hre : (get_elasticsearch_logs env w ci).1.isEmpty = true
      · rw [if_pos hre] at hne ⊢
        rw [cwTail_logs] at hne
        obtain ⟨hsup, hhint, hwr⟩ :=
          cwTail_success w _ _ (es_trace_nosup env w ci) hne
        have hsupof : supplierOf (cloudwatchTail w
            (get_elasticsearch_logs env w ci).2.1
            (get_elasticsearch_logs env w ci).2.2).2.2 = some "cloudwatch" := by
          rw [supplierOf, hsup]
          rfl
        obtain ⟨hp1, hp2, hp3⟩ := es_preserves env w ci
        refine ⟨by rw [hsup]; rfl, by rw [hhint, hsupof], hwr, ?_, ?_, ?_⟩
        · intro hcontra
          rw [hsupof] at hcontra
          simp at hcontra
        · intro hcontra
          rw [hsupof] at hcontra
          simp at hcontra
        · intro _
          rw [cwTail_logs]
          exact (cw_congr w _ ci hp1 hp2 hp3).1
      · rw [if_neg hre] at hne ⊢
        obtain ⟨hsup, hwr⟩ :=
          primary_success_trace _ "elasticsearch" (es_trace_nosup env w ci)
        have hsupof : supplierOf ((get_elasticsearch_logs env w ci).2.2
            ++ [Ev.setSource "elasticsearch", Ev.supplied "elasticsearch"])
              = some "elasticsearch" := by
          rw [supplierOf, hsup]
          rfl
        refine ⟨by rw [hsup]; rfl, by rw [hsupof], hwr, ?_, ?_, ?_⟩
        · intro _
          rfl
        · intro hcontra
          rw [hsupof] at hcontra
          simp at hcontra
        · intro hcontra
          rw [hsupof] at hcontra
          simp at hcontra
    · -- primary destination: coralogix
      rw [grl_cg_eq env w pIso now_ms ci fc hdest hfc] at hne ⊢
      by_cases hre : (get_coralogix_logs env w pIso now_ms ci).1.isEmpty = true
      · rw [if_pos hre] at hne ⊢
        rw [cwTail_logs] at hne
        obtain ⟨hsup, hhint, hwr⟩ :=
          cwTail_success w _ _ (cg_trace_nosup env w pIso now_ms ci) hne
        have hsupof : supplierOf (cloudwatchTail w
            (get_coralogix_logs env w pIso now_ms ci).2.1
            (get_coralogix_logs env w pIso now_ms ci).2.2).2.2 = some "cloudwatch" := by
          rw [supplierOf, hsup]
          rfl
        obtain ⟨hp1, hp2, hp3⟩ := cg_preserves env w pIso now_ms ci
        refine ⟨by rw [hsup]; rfl, by rw [hhint, hsupof], hwr, ?_, ?_, ?_⟩
        · intro hcontra
          rw [hsupof] at hcontra
          simp at hcontra
        · intro hcontra
          rw [hsupof] at hcontra
          simp at hcontra
        · intro _
          rw [cwTail_logs]
          exact (cw_congr w _ ci hp1 hp2 hp3).1
      · rw [if_neg hre] at hne ⊢
        obtain ⟨hsup, hwr⟩ :=
          primary_success_trace _ "coralogix" (cg_trace_nosup env w pIso now_ms ci)
        have hsupof : supplierOf ((get_coralogix_logs env w pIso now_ms ci).2.2
            ++ [Ev.setSource "coralogix", Ev.supplied "coralogix"])
              = some "coralogix" := by
          rw [supplierOf, hsup]
          rfl
        refine ⟨by rw [hsup]; rfl, by rw [hsupof], hwr, ?_, ?_, ?_⟩
        · intro hcontra
          rw [hsupof] at hcontra
          simp at hcontra
        · intro _
          rfl
        · intro hcontra
          rw [hsupof] at hcontra
          simp at hcontra
    · -- primary destination: cloudwatch
      rw [grl_cw_eq env w pIso now_ms ci fc hdest hfc] at hne ⊢
      rw [cwTail_logs] at hne
      obtain ⟨hsup, hhint, hwr⟩ := cwTail_success w ci [] rfl hne
      have hsupof : supplierOf (cloudwatchTail w ci []).2.2 = some "cloudwatch" := by
        rw [supplierOf, hsup]
        rfl
      refine ⟨by rw [hsup]; rfl, by rw [hhint, hsupof], hwr, ?_, ?_, ?_⟩
      · intro hcontra
        rw [hsupof] at hcontra
        simp at hcontra
      · intro hcontra
        rw [hsupof] at hcontra
        simp at hcontra
      · intro _
        exact cwTail_logs w ci []

/-- Claim C2 (witness): a successful search-engine run at a concrete
input has its hint equal to the trace's supplier. -/
theorem backend_hint_matches_supplier_wit :
    (get_recent_logs envBoth wC2 pIsoNone 0 ciWeb).2.1.log_source
      = supplierOf (get_recent_logs envBoth wC2 pIsoNone 0 ciWeb).2.2 :=
  (backend_hint_matches_supplier envBoth wC2 pIsoNone 0 ciWeb (by decide)).2.1

/-- Claim C4: a crash context with an absent or empty task ARN resolves
to an empty sequence, and the run's trace contains no network call to
any backend or to the control plane. -/
theorem no_task_id_no_network
    (env : Env) (w : World) (pIso : String → Option Int) (now_ms : Int)
    (ci : CrashInfo) (hta : ci.task_arn = none ∨ ci.task_arn = some "") :
    (get_recent_logs env w pIso now_ms ci).1 = []
      ∧ ((get_recent_logs env w pIso now_ms ci).2.2).all (fun e => !e.isNet) = true := by
  have h1 : pyTruthyOpt ci.task_arn = false := by
    rcases hta with h | h <;> simp [h, pyTruthyOpt]
  have h2 : ci.task_arn.getD "" = "" := by
    rcases hta with h | h <;> simp [h]
  have hcw : get_cloudwatch_logs w ci = ([], ci, [Ev.cwAttempt]) := cw_task_falsy w ci h2
  have hcwE : (get_cloudwatch_logs w ci).1.isEmpty = true := by
    rw [hcw]
    rfl
  cases hfc : ci.failed_container with
  | none =>
    rw [grl_none_eq env w pIso now_ms ci hfc]
    exact ⟨rfl, rfl⟩
  | some fc =>
    rcases detect_cases env with hdest | hdest | hdest
    · rw [grl_es_eq env w pIso now_ms ci fc hdest hfc,
          es_task_falsy env w ci h1]
      rw [if_pos (show (([] : List Json), ci, [Ev.esAttempt]).1.isEmpty = true from rfl)]
      rw [show (([] : List Json), ci, [Ev.esAttempt]).2.1 = ci from rfl,
          show (([] : List Json), ci, [Ev.esAttempt]).2.2 = [Ev.esAttempt] from rfl]
      rw [cwTail_empty_eq w ci [Ev.esAttempt] hcwE, hcw]
      exact ⟨rfl, rfl⟩
    · rw [grl_cg_eq env w pIso now_ms ci fc hdest hfc,
          cg_task_falsy env w pIso now_ms ci h2]
      rw [if_pos (show (([] : List Json), ci, [Ev.cgAttempt]).1.isEmpty = true from rfl)]
      rw [show (([] : List Json), ci, [Ev.cgAttempt]).2.1 = ci from rfl,
          show (([] : List Json), ci, [Ev.cgAttempt]).2.2 = [Ev.cgAttempt] from rfl]
      rw [cwTail_empty_eq w ci [Ev.cgAttempt] hcwE, hcw]
      exact ⟨rfl, rfl⟩
    · rw [grl_cw_eq env w pIso now_ms ci fc hdest hfc,
          cwTail_empty_eq w ci [] hcwE, hcw]
      exact ⟨rfl, rfl⟩

/-- Claim C4 (witness): the concrete crash context without a task ARN
resolves to nothing and issues no network call. -/
theorem no_task_id_no_network_wit :
    (get_recent_logs envBoth wC2 pIsoNone 0 ciNoTask).1 = []
      ∧ ((get_recent_logs envBoth wC2 pIsoNone 0 ciNoTask).2.2).all
          (fun e => !e.isNet) = true :=
  no_task_id_no_network envBoth wC2 pIsoNone 0 ciNoTask (Or.inl rfl)

/-- Claim C3 (counterexample): the search-engine adapter emits an entry
whose `timestamp` is the source document's ISO-8601 string, copied
verbatim — not a non-negative integer in epoch milliseconds. -/
theorem es_timestamp_verbatim_cex :
    ((get_elasticsearch_logs envBoth wC2 ciWeb).1).isEmpty = false
      ∧ ((get_elasticsearch_logs envBoth wC2 ciWeb).1).all entryTimestampOk = false
      ∧ ((get_elasticsearch_logs envBoth wC2 ciWeb).1.head?.bind
          (fun e => e.get "timestamp"))
          = some (Json.str "2025-09-21T09:59:32Z") :=
  ⟨by decide, by decide, rfl⟩

/-- `Option.getD` keeps non-negativity. -/
theorem optGetD_nonneg (o : Option Int) (d : Int) (hd : 0 ≤ d)
    (h : ∀ m, o = some m → 0 ≤ m) : 0 ≤ o.getD d := by
  cases o with
  | none => simpa
  | some m => simpa using h m rfl

/-- The DataPrime timestamp extraction always yields a non-negative
value when the parser's outputs and the clock are non-negative. -/
theorem cgTimestampOf_nonneg (pIso : String → Option Int) (now_ms : Int)
    (log : Json) (hnow : 0 ≤ now_ms) (hpi : ∀ s m, pIso s = some m → 0 ≤ m) :
    0 ≤ cgTimestampOf pIso now_ms log := by
  unfold cgTimestampOf
  simp only []
  repeat' split
  all_goals first
    | exact hnow
    | exact optGetD_nonneg _ _ hnow (fun m hm => hpi _ m hm)

/-- A normalized `{timestamp, message}` entry's check computes to the
non-negativity of its integer timestamp. -/
theorem entryTimestampOk_mk (n : Int) (s : String) :
    entryTimestampOk (Json.obj [("timestamp", Json.int n), ("message", Json.str s)])
      = decide (0 ≤ n) := rfl

/-- Membership through the descending insertion. -/
theorem mem_insertTsDesc (x : Json) (l : List Json) (a : Json) :
    a ∈ insertTsDesc x l ↔ a = x ∨ a ∈ l := by
  induction l with
  | nil => simp [insertTsDesc]
  | cons y ys ih =>
    unfold insertTsDesc
    split
    · simp [List.mem_cons]
    · simp only [List.mem_cons, ih]
      tauto

/-- The descending sort permutes membership only. -/
theorem mem_sortTsDesc (l : List Json) (a : Json) :
    a ∈ sortTsDesc l ↔ a ∈ l := by
  induction l with
  | nil => simp [sortTsDesc]
  | cons y ys ih => simp [sortTsDesc, mem_insertTsDesc, ih]

/-- Entries read from a CloudWatch stream have the backend's integer
timestamps; under the non-negativity assumption they pass the check. -/
theorem glfs_entries_all (w : World) (ci : CrashInfo) (g s : String)
    (h : ∀ evs, w.events g s = some evs → ∀ ev ∈ evs, 0 ≤ ev.timestamp) :
    ((get_logs_from_stream w ci g s).1).all entryTimestampOk = true := by
  unfold get_logs_from_stream
  cases hev : w.events g s with
  | none => rfl
  | some evs =>
    simp only []
    split
    · rfl
    · rw [List.all_eq_true]
      intro e he
      obtain ⟨ev, hevmem, rfl⟩ := List.mem_map.mp he
      rw [entryTimestampOk_mk]
      exact decide_eq_true (h evs hev ev hevmem)

/-- Lifting `glfs_entries_all` through the stream selection logic. -/
theorem glwc_entries_all (w : World) (ci : CrashInfo) (cfg : Json) (tid : String)
    (h : ∀ g s evs, w.events g s = some evs → ∀ ev ∈ evs, 0 ≤ ev.timestamp) :
    ((get_logs_with_config w ci cfg tid).1).all entryTimestampOk = true := by
  have hfs : ∀ g s, ((get_logs_from_stream w ci g s).1).all entryTimestampOk = true :=
    fun g s => glfs_entries_all w ci g s (fun evs hevs => h g s evs hevs)
  unfold get_logs_with_config
  simp only []
  repeat' split
  all_goals first
    | rfl
    | exact hfs _ _

/-- Lifting through the CloudWatch adapter. -/
theorem cw_entries_all (w : World) (ci : CrashInfo)
    (h : ∀ g s evs, w.events g s = some evs → ∀ ev ∈ evs, 0 ≤ ev.timestamp) :
    ((get_cloudwatch_logs w ci).1).all entryTimestampOk = true := by
  have hwc : ∀ cfg tid,
      ((get_logs_with_config w ci cfg tid).1).all entryTimestampOk = true :=
    fun cfg tid => glwc_entries_all w ci cfg tid h
  unfold get_cloudwatch_logs
  simp only []
  repeat' split
  all_goals first
    | rfl
    | exact hwc _ _

/-- All DataPrime adapter entries pass the timestamp check when the
parser's outputs and the clock are non-negative. -/
theorem cg_entries_all (env : Env) (w : World) (pIso : String → Option Int)
    (now_ms : Int) (ci : CrashInfo) (hnow : 0 ≤ now_ms)
    (hpi : ∀ s m, pIso s = some m → 0 ≤ m) :
    ((get_coralogix_logs env w pIso now_ms ci).1).all entryTimestampOk = true := by
  unfold get_coralogix_logs
  simp only []
  repeat' split
  all_goals try rfl
  rw [List.all_eq_true]
  intro e he
  obtain ⟨log, hlog, rfl⟩ := List.mem_map.mp ((mem_sortTsDesc _ _).mp he)
  rw [entryTimestampOk_mk]
  exact decide_eq_true (cgTimestampOf_nonneg pIso now_ms log hnow hpi)

/-- Claim C3 (amended): the DataPrime adapter converts the ISO metadata
timestamp to integer epoch-ms, falling back to the current time when it
is missing, falsy or unparsable, so all its entries carry non-negative
integer timestamps whenever the parser's outputs and the clock are
non-negative; CloudWatch entries carry the backend's integer event
timestamps, non-negative under the same reading of the backend.  The
search-engine adapter, however, copies each source document's
`@timestamp` value verbatim (defaulting to the empty string when it is
missing), performing no conversion to epoch milliseconds. -/
theorem adapter_timestamp_normalization
    (env : Env) (w : World) (pIso : String → Option Int) (now_ms : Int)
    (ci : CrashInfo)
    (hnow : 0 ≤ now_ms)
    (hpi : ∀ s m, pIso s = some m → 0 ≤ m)
    (hev : ∀ g s evs, w.events g s = some evs → ∀ ev ∈ evs, 0 ≤ ev.timestamp) :
    (∀ e ∈ (get_coralogix_logs env w pIso now_ms ci).1, entryTimestampOk e = true)
      ∧ (∀ e ∈ (get_cloudwatch_logs w ci).1, entryTimestampOk e = true)
      ∧ (∀ body, w.esBody = some body →
          es_configured env = true → pyTruthyOpt ci.task_arn = true →
          ((get_elasticsearch_logs env w ci).1).map (fun e => e.get "timestamp")
            = (esHitsOf body).map (fun hit =>
                some ((hit.getD "_source" (Json.obj [])).getD "@timestamp"
                  (Json.str "")))) := by
  refine ⟨List.all_eq_true.mp (cg_entries_all env w pIso now_ms ci hnow hpi),
    List.all_eq_true.mp (cw_entries_all w ci hev), ?_⟩
  · intro body hbody hok htask
    unfold get_elasticsearch_logs
    rw [hok, htask, hbody]
    simp only [Bool.not_true, Bool.false_eq_true, if_false]
    rw [List.map_map]
    rfl

/-- Claim C3 (witness for the amended theorem): a concrete DataPrime
record with an ISO metadata timestamp yields an entry passing the
integer epoch-ms check. -/
theorem adapter_timestamp_normalization_wit :
    entryTimestampOk cgEntryW = true := by
  have h := (adapter_timestamp_normalization envCgOnly wC3 pIsoFixed 5 ciWeb
    (by decide)
    (by
      intro s m hm
      simp only [pIsoFixed, Option.some.injEq] at hm
      omega)
    (by
      intro g s evs hevs ev hmem
      simp only [wC3, wC2, wC1] at hevs
      split at hevs
      · cases hevs
        simp only [List.mem_singleton] at hmem
        subst hmem
        decide
      · cases hevs
        simp at hmem)).1
  have hl : (get_coralogix_logs envCgOnly wC3 pIsoFixed 5 ciWeb).1 = [cgEntryW] := rfl
  exact h cgEntryW (by rw [hl]; exact List.Mem.head _)
